import Mathlib

/-!
# Verification of the dex-auth-operator reconciliation core

Shallow embedding of `src/charm.py` (class `Operator`) of the
canonical/dex-auth-operator repository: the issuer-URL resolver, the dex
configuration compiler (`_generate_dex_auth_config`), the apply engine
(`_update_layer`), the stored identity state (`ensure_state`), the main
reconcile loop (`main`) and the three OAuth client lifecycle handlers.

External collaborators (the Juju/ops runtime, the YAML library, bcrypt,
the relation interface library) are modelled at their interface boundary:
YAML serialization and the bcrypt hash are uninterpreted function
parameters, secrets are an optional labelled key/value content map where
`set_content` replaces the whole content, and relation interface fetches
are an input describing the outcome of `get_interface`.
-/

namespace DexAuth

/-- A parsed YAML value, as produced by `yaml.safe_load`.  Used for the
`connectors` config option (opaque to the charm) and for values stored in
a secret's content map. -/
inductive Yaml where
  | null
  | str (s : String)
  | int (n : Int)
  | bool (b : Bool)
  | list (xs : List Yaml)
  | map (kvs : List (String × Yaml))

/-- Python truthiness of a parsed YAML value: `None`, the empty string,
`0`, `False`, the empty list and the empty mapping are falsy; everything
else is truthy.  This is what `not connectors` tests in
`_generate_dex_auth_config`. -/
def Yaml.truthy : Yaml → Bool
  | .null => false
  | .str s => s != ""
  | .int n => n != 0
  | .bool b => b
  | .list xs => !xs.isEmpty
  | .map kvs => !kvs.isEmpty

/-- A charm unit status (`ops.model`): `ActiveStatus`, `WaitingStatus`,
`BlockedStatus`, `MaintenanceStatus`, each non-active one carrying its
message. -/
inductive Status where
  | active
  | waiting (msg : String)
  | blocked (msg : String)
  | maintenance (msg : String)
deriving DecidableEq, Repr

/-- `ErrorWithStatus` from charmed_kubeflow_chisme: an exception carrying
the status (message plus status class) that the reconcile loop assigns to
the unit when it catches the exception; `err.status` is exactly the
carried `Status`. -/
abbrev ErrorWithStatus := Status

/-- The charm configuration options read by the code under scrutiny
(`self.model.config[...]`): `issuer-url`, `public-url`, `port`,
`connectors`, `enable-password-db`, `static-username`, `static-password`.
String options default to the empty string; `connectors` is kept here
already in parsed form (the result of `yaml.safe_load` on the raw option,
which the charm computes once and uses only through truthiness and
verbatim inclusion in the document). -/
structure CharmConfig where
  issuerUrl : String
  publicUrl : String
  port : Nat
  connectors : Yaml
  enablePasswordDb : Bool
  staticUsername : String
  staticPassword : String

/-- Python's `str.startswith` with a single pattern: the pattern's
characters are a prefix of the string's characters. -/
def startswith (s pat : String) : Bool := pat.data.isPrefixOf s.data

/-- The `Operator._issuer_url` property.  Inputs beyond the config are
the ingress-relation URL (`self._ingress.url`, `None` when the relation
has not produced one — Python tests its truthiness, so an empty string
counts as absent), the application name and the model namespace. -/
def issuer_url (cfg : CharmConfig) (ingressUrl : Option String)
    (appName ns : String) : String :=
  if cfg.issuerUrl ≠ "" then
    cfg.issuerUrl
  else if cfg.publicUrl ≠ "" then
    let publicUrl :=
      if startswith cfg.publicUrl "http://" ∨ startswith cfg.publicUrl "https://" then
        cfg.publicUrl
      else
        "http://" ++ cfg.publicUrl
    publicUrl ++ "/dex"
  else if (ingressUrl.getD "") ≠ "" then
    ingressUrl.getD ""
  else
    "http://" ++ appName ++ "." ++ ns ++ ".svc:" ++ toString cfg.port ++ "/dex"

/-- The values `ensure_state` would store on first initialization for the
randomly generated fields: `"".join(choices(ascii_letters, k=30))`,
`bcrypt.gensalt()` and `str(uuid4())`.  Randomness is external, so the
generated values are an input of the model. -/
structure GenValues where
  password : String
  salt : String
  userId : String

/-- The charm's `StoredState` as touched by `ensure_state`: each field is
`none` until `set_default` assigns it. -/
structure StoredState where
  username : Option String
  password : Option String
  salt : Option String
  userId : Option String
deriving DecidableEq, Repr

/-- `Operator.ensure_state`: `state.set_default(username="admin",
password=<random 30 letters>, salt=bcrypt.gensalt(), user_id=str(uuid4()))`.
`set_default` assigns each keyword only when the attribute is not yet
set, and leaves already-set attributes untouched. -/
def ensure_state (gen : GenValues) (s : StoredState) : StoredState :=
  { username := some (s.username.getD "admin")
    password := some (s.password.getD gen.password)
    salt := some (s.salt.getD gen.salt)
    userId := some (s.userId.getD gen.userId) }

/-- The stored-state fields as read by `_generate_dex_auth_config`
(`self.state.username`, `.password`, `.salt`, `.user_id`), which runs
only after `ensure_state` has set them all. -/
structure StateData where
  username : String
  password : String
  salt : String
  userId : String
deriving DecidableEq, Repr

/-- Read the four fields out of an initialized `StoredState`. -/
def StoredState.data (s : StoredState) : StateData :=
  { username := s.username.getD ""
    password := s.password.getD ""
    salt := s.salt.getD ""
    userId := s.userId.getD "" }

/-- One entry of the `staticClients` list of the dex config document:
either an externally registered OIDC client read from the `oidc-client`
relation (`{id, name, redirectURIs, secret}`) or the synthesized OAuth
static client built in `Operator.main` from the persisted secret. -/
structure DexStaticClient where
  id : String
  secret : String
  redirectURIs : List String
  name : String
deriving DecidableEq, Repr

/-- One entry of the `staticPasswords` list built by
`_generate_dex_auth_config` when `enable-password-db` is true. -/
structure StaticPassword where
  email : String
  hash : String
  username : String
  userID : String
deriving DecidableEq, Repr

/-- The `storage` section of the dex config document. -/
structure StorageCfg where
  type : String
  inCluster : Bool
deriving DecidableEq, Repr

/-- The `logger` section of the dex config document. -/
structure LoggerCfg where
  level : String
  format : String
deriving DecidableEq, Repr

/-- The dictionary passed to `yaml.dump` at the end of
`_generate_dex_auth_config`; `webHttp` is the `web.http` bind address,
`telemetryHttp` the `telemetry.http` one, `skipApprovalScreen` the sole
key of the `oauth2` section. -/
structure DexDoc where
  issuer : String
  storage : StorageCfg
  webHttp : String
  telemetryHttp : String
  logger : LoggerCfg
  skipApprovalScreen : Bool
  staticClients : List DexStaticClient
  connectors : Yaml
  enablePasswordDB : Bool
  staticPasswords : List StaticPassword

/-- `Operator._generate_dex_auth_config`, up to the final `yaml.dump`:
builds the config dictionary or raises `ErrorWithStatus(..., BlockedStatus)`.

The fetch of the `oidc-client` interface data
(`list(oidc.get_data().values())`) is performed by the caller and passed
in as `oidcClientInfo` (see `get_interface_data` and `update_layer`); the
bcrypt hash (`bcrypt.hashpw(password, salt)`) is the uninterpreted
function parameter `hashpw`; `issuer` is the value of the `_issuer_url`
property, which the dictionary embeds. -/
def generate_dex_auth_doc (hashpw : String → String → String)
    (cfg : CharmConfig) (st : StateData) (issuer : String)
    (oidcClientInfo : List DexStaticClient)
    (dexOauthStaticClient : Option DexStaticClient) :
    Except ErrorWithStatus DexDoc :=
  let oidcClientInfo :=
    match dexOauthStaticClient with
    | some c => oidcClientInfo ++ [c]
    | none => oidcClientInfo
  let connectors := cfg.connectors
  let port := cfg.port
  let enablePasswordDb := cfg.enablePasswordDb
  if ¬enablePasswordDb ∧ ¬connectors.truthy then
    .error (Status.blocked
      "Please add a connectors configuration to proceed without a static login.")
  else
    let staticPasswords :=
      if enablePasswordDb then
        let staticUsername := if cfg.staticUsername != "" then cfg.staticUsername else st.username
        let staticPassword := if cfg.staticPassword != "" then cfg.staticPassword else st.password
        let hashed := hashpw staticPassword st.salt
        [{ email := staticUsername
           hash := hashed
           username := staticUsername
           userID := st.userId : StaticPassword }]
      else
        []
    .ok
      { issuer := issuer
        storage := { type := "kubernetes", inCluster := true }
        webHttp := "0.0.0.0:" ++ toString port
        telemetryHttp := "0.0.0.0:5558"
        logger := { level := "debug", format := "text" }
        skipApprovalScreen := true
        staticClients := oidcClientInfo
        connectors := connectors
        enablePasswordDB := enablePasswordDb
        staticPasswords := staticPasswords }

/-- `Operator._generate_dex_auth_config` proper: the document serialized
with `yaml.dump`, an uninterpreted deterministic serializer `dump`. -/
def generate_dex_auth_config (dump : DexDoc → String)
    (hashpw : String → String → String)
    (cfg : CharmConfig) (st : StateData) (issuer : String)
    (oidcClientInfo : List DexStaticClient)
    (dexOauthStaticClient : Option DexStaticClient) :
    Except ErrorWithStatus String :=
  match generate_dex_auth_doc hashpw cfg st issuer oidcClientInfo dexOauthStaticClient with
  | .error err => .error err
  | .ok doc => .ok (dump doc)

/-- Outcome of `serialized_data_interface.get_interface(self, name)` as
seen by `Operator._get_interface`: the interface object (truthy, carrying
data of type `α`), a falsy result when the relation is absent, or one of
the two exceptions the charm translates into statuses. -/
inductive InterfaceResult (α : Type) where
  | absent
  | data (d : α)
  | noVersionsListed (msg : String)
  | noCompatibleVersions (msg : String)

/-- `Operator._get_interface`: returns the interface (or `None`), mapping
`NoVersionsListed` to a Waiting error and `NoCompatibleVersions` to a
Blocked error. -/
def get_interface {α : Type} : InterfaceResult α → Except ErrorWithStatus (Option α)
  | .absent => .ok none
  | .data d => .ok (some d)
  | .noVersionsListed msg => .error (.waiting msg)
  | .noCompatibleVersions msg => .error (.blocked msg)

/-- One Pebble service entry of the layer built by
`Operator._dex_auth_layer`. -/
structure PebbleService where
  override : String
  summary : String
  command : String
  startup : String
  user : String
  environment : List (String × String)
deriving DecidableEq, Repr

/-- The `services` section of `Operator._dex_auth_layer`: one service
named `dex` whose command runs the entrypoint on the fixed config path
and whose environment carries the model namespace. -/
def dex_auth_layer_services (ns : String) : List (String × PebbleService) :=
  [("dex",
    { override := "replace"
      summary := "entrypoint of the dex-auth-operator image"
      command := "/usr/local/bin/docker-entrypoint dex serve /etc/dex/config.docker.yaml"
      startup := "enabled"
      user := "_daemon_"
      environment := [("KUBERNETES_POD_NAMESPACE", ns)] })]

/-- The observable state of the `dex` workload container:
reachability (`can_connect`), the currently applied Pebble plan services
(`get_plan().services`) and the bytes of the config file at
`/etc/dex/config.docker.yaml` (the dex image ships a config file at that
path, so `pull(...).read()` succeeds). -/
structure Container where
  canConnect : Bool
  planServices : List (String × PebbleService)
  configFile : String
deriving DecidableEq, Repr

/-- Side effects recorded during one event handling: counts of Pebble
layer writes (`add_layer`), config-file writes (`push`), service
restarts (`restart`), relation-data writes (`send_data`,
`set_provider_info_in_relation_data`,
`set_client_credentials_in_relation_data`), secret creations/updates
(`add_secret`, `set_content`) and secret removals
(`remove_all_revisions`), plus every unit status assigned along the way,
in order. -/
structure Effects where
  layerWrites : Nat
  configWrites : Nat
  restarts : Nat
  relationWrites : Nat
  secretWrites : Nat
  secretDeletes : Nat
  statusSets : List Status
deriving DecidableEq, Repr

/-- No side effects yet. -/
def Effects.zero : Effects :=
  { layerWrites := 0, configWrites := 0, restarts := 0, relationWrites := 0
    secretWrites := 0, secretDeletes := 0, statusSets := [] }

/-- Outcome of `_update_layer`, as explicit state passing: the container
state after whatever writes were performed, the effects performed, and
the `ErrorWithStatus` that aborted the method, if any. -/
structure ApplyOutcome where
  container : Container
  eff : Effects
  error : Option ErrorWithStatus

/-- `Operator._update_layer`: check container connectivity, generate the
dex config (fetching the `oidc-client` interface data first, as
`_generate_dex_auth_config` does at its top), replace the Pebble layer
only when the current plan's services differ from the desired ones,
push the config file only when the current bytes differ from the desired
bytes, and finally restart the service unconditionally.  Both raises
(connectivity and config generation) happen before any write.  The layer
write never touches the config file, so the two change comparisons are
independent and the success outcome is written field-wise. -/
def update_layer (dump : DexDoc → String) (hashpw : String → String → String)
    (cfg : CharmConfig) (st : StateData) (issuer : String)
    (oidcRes : InterfaceResult (List DexStaticClient))
    (dexOauthStaticClient : Option DexStaticClient)
    (ns : String) (c : Container) : ApplyOutcome :=
  if ¬c.canConnect then
    { container := c, eff := Effects.zero
      error := some (Status.waiting "Waiting for pod startup to complete") }
  else
    match get_interface oidcRes with
    | .error err => { container := c, eff := Effects.zero, error := some err }
    | .ok oidc =>
      match generate_dex_auth_config dump hashpw cfg st issuer
          (oidc.getD []) dexOauthStaticClient with
      | .error err => { container := c, eff := Effects.zero, error := some err }
      | .ok dexAuthConfig =>
        { container :=
            { canConnect := c.canConnect
              planServices :=
                if c.planServices ≠ dex_auth_layer_services ns then
                  dex_auth_layer_services ns
                else
                  c.planServices
              configFile :=
                if c.configFile ≠ dexAuthConfig then dexAuthConfig else c.configFile }
          eff :=
            { layerWrites := if c.planServices ≠ dex_auth_layer_services ns then 1 else 0
              configWrites := if c.configFile ≠ dexAuthConfig then 1 else 0
              restarts := 1
              relationWrites := 0
              secretWrites := 0
              secretDeletes := 0
              statusSets :=
                if c.planServices ≠ dex_auth_layer_services ns then
                  [Status.maintenance "Applying new pebble layer"]
                else
                  [] }
          error := none }

/-- The content of the labelled OAuth static-client secret: a key/value
map, as stored by the ops secret backend (an abstract labelled store
whose `set_content` replaces the whole content with the given mapping). -/
def SecretContent := List (String × Yaml)

/-- Dictionary lookup in a secret's content. -/
def lookupContent (c : SecretContent) (k : String) : Option Yaml :=
  (c.find? (fun kv => kv.1 == k)).map (fun kv => kv.2)

/-- The read at the top of `Operator.main`: fetch the secret labelled
`oauth.static.client`; absence (`SecretNotFoundError`) is caught and
yields no static client; when the secret exists, the four keys
`client-id`, `client-secret`, `redirect-uri` and `name` are read by
plain dict indexing, so a missing (or non-string) key raises an uncaught
`KeyError`, modelled as the `.error` case. -/
def read_oauth_static_client (store : Option SecretContent) :
    Except String (Option DexStaticClient) :=
  match store with
  | none => .ok none
  | some content =>
    match lookupContent content "client-id", lookupContent content "client-secret",
        lookupContent content "redirect-uri", lookupContent content "name" with
    | some (.str i), some (.str s), some (.str r), some (.str n) =>
        .ok (some { id := i, secret := s, redirectURIs := [r], name := n })
    | _, _, _, _ => .error "KeyError"

/-- Everything `Operator.main` reads besides the stored state and the
secret store: charm config, leadership, the charm's network identity,
the ingress-relation URL, the outcomes of the two
`serialized_data_interface` fetches, the observed container state, the
random values `ensure_state` would store on first run, and the two
uninterpreted external functions (bcrypt hash and YAML serializer). -/
structure World where
  config : CharmConfig
  isLeader : Bool
  appName : String
  ns : String
  ingressUrl : Option String
  oidcRes : InterfaceResult (List DexStaticClient)
  ingressRes : InterfaceResult Unit
  container : Container
  gen : GenValues
  hashpw : String → String → String
  dump : DexDoc → String

/-- Result of one run of `Operator.main` that did not raise an uncaught
exception: the stored state, container state and unit status after the
run, the full ordered list of statuses assigned during the run, and the
side effects performed. -/
structure MainResult where
  state : StoredState
  container : Container
  status : Status
  history : List Status
  eff : Effects

/-- `Operator.main`, the reconcile loop: read the OAuth static-client
secret (uncaught `KeyError` surfaces as `.error`); inside the
`try` block check leadership, set `MaintenanceStatus("Configuring dex
charm")`, ensure the stored state, update the layer and publish the
ingress route data; an `ErrorWithStatus` sets the unit status to the
carried status and returns; otherwise the leader publishes the OAuth
provider endpoint info in relation data and the unit goes Active. -/
def main (w : World) (store : Option SecretContent) (st : StoredState) :
    Except String MainResult :=
  match read_oauth_static_client store with
  | .error e => .error e
  | .ok dexOauthStaticClient =>
  if w.isLeader then
    let st1 := ensure_state w.gen st
    let issuer := issuer_url w.config w.ingressUrl w.appName w.ns
    let ar := update_layer w.dump w.hashpw w.config st1.data issuer w.oidcRes
        dexOauthStaticClient w.ns w.container
    match ar.error with
    | some err =>
        .ok { state := st1
              container := ar.container
              status := err
              history := [Status.maintenance "Configuring dex charm"]
                ++ ar.eff.statusSets ++ [err]
              eff := ar.eff }
    | none =>
      match get_interface w.ingressRes with
      | .error err =>
          .ok { state := st1
                container := ar.container
                status := err
                history := [Status.maintenance "Configuring dex charm"]
                  ++ ar.eff.statusSets ++ [err]
                eff := ar.eff }
      | .ok ingressInterface =>
          let effAfterIngress :=
            match ingressInterface with
            | some _ => { ar.eff with relationWrites := ar.eff.relationWrites + 1 }
            | none => ar.eff
          let effFinal :=
            { effAfterIngress with relationWrites := effAfterIngress.relationWrites + 1 }
          .ok { state := st1
                container := ar.container
                status := Status.active
                history := [Status.maintenance "Configuring dex charm"]
                  ++ ar.eff.statusSets ++ [Status.active]
                eff := effFinal }
  else
    .ok { state := st
          container := w.container
          status := Status.waiting "Waiting for leadership"
          history := [Status.waiting "Waiting for leadership"]
          eff := Effects.zero }

/-- Result of one OAuth lifecycle handler run: the secret store
afterwards, the effects the handler itself performed before/around its
final `self.main(event)` call, and the outcome of that `main` call when
it was made. -/
structure HandlerResult where
  store : Option SecretContent
  handlerEff : Effects
  mainResult : Option (Except String MainResult)

/-- `Operator._on_oauth_client_created`: leader-only; generate a fresh
client id and secret (random hex tokens, inputs of the model), persist
them with the redirect URI and a name derived from the relation id as
the labelled secret (`add_secret`), publish the credentials in the
relation data, and run `main`.  A non-leader does nothing. -/
def on_oauth_client_created (w : World) (store : Option SecretContent)
    (st : StoredState) (clientId clientSecret : String)
    (redirectUri : String) (relationId : Nat) : HandlerResult :=
  if w.isLeader then
    let content : SecretContent :=
      [("client-id", Yaml.str clientId),
       ("client-secret", Yaml.str clientSecret),
       ("redirect-uri", Yaml.str redirectUri),
       ("name", Yaml.str ("oauth_" ++ toString relationId))]
    { store := some content
      handlerEff := { Effects.zero with secretWrites := 1, relationWrites := 1 }
      mainResult := some (main w (some content) st) }
  else
    { store := store, handlerEff := Effects.zero, mainResult := none }

/-- `Operator._on_oauth_client_changed`: fetch the labelled secret (an
absent secret raises an uncaught `SecretNotFoundError`, the `.error`
case), call `set_content({"redirectURIs": [event.redirect_uri]})` —
which replaces the whole content with that one-key mapping — and run
`main`.  There is no leadership check. -/
def on_oauth_client_changed (w : World) (store : Option SecretContent)
    (st : StoredState) (redirectUri : String) : Except String HandlerResult :=
  match store with
  | none => .error "SecretNotFoundError"
  | some _ =>
    let content : SecretContent := [("redirectURIs", Yaml.list [Yaml.str redirectUri])]
    .ok { store := some content
          handlerEff := { Effects.zero with secretWrites := 1 }
          mainResult := some (main w (some content) st) }

/-- `Operator._on_oauth_client_deleted`: if leader, remove all revisions
of the labelled secret, with `SecretNotFoundError` caught and logged as
a no-op; then run `main` (for leaders and non-leaders alike). -/
def on_oauth_client_deleted (w : World) (store : Option SecretContent)
    (st : StoredState) : HandlerResult :=
  if w.isLeader then
    match store with
    | some _ =>
        { store := none
          handlerEff := { Effects.zero with secretDeletes := 1 }
          mainResult := some (main w none st) }
    | none =>
        { store := none
          handlerEff := Effects.zero
          mainResult := some (main w none st) }
  else
    { store := store, handlerEff := Effects.zero, mainResult := some (main w store st) }

/-! ## Concrete fixtures used to instantiate the theorems -/

/-- An uninitialized stored state, as on a fresh unit. -/
def emptyState : StoredState := ⟨none, none, none, none⟩

/-- Sample random values for `ensure_state`. -/
def sampleGen : GenValues :=
  { password := "pwpwpwpwpwpwpwpwpwpwpwpwpwpwpw", salt := "$2b$12$salt", userId := "uuid-1" }

/-- A sample charm configuration with the password DB enabled and the
defaults for everything else. -/
def sampleConfig : CharmConfig :=
  { issuerUrl := "", publicUrl := "", port := 5556, connectors := Yaml.null
    enablePasswordDb := true, staticUsername := "", staticPassword := "" }

/-- A sample stand-in for the external bcrypt hash. -/
def sampleHash (password salt : String) : String := salt ++ ":" ++ password

/-- A sample stand-in for the external YAML serializer: any function of
the document works for the theorems; this one records a few fields. -/
def sampleDump (d : DexDoc) : String :=
  d.issuer ++ "|" ++ d.webHttp ++ "|" ++ toString d.staticPasswords.length

/-- A sample world: leadership and container reachability are the
parameters, relations are absent, the container already carries the
desired plan and some config bytes. -/
def sampleWorld (leader canConnect : Bool) (configFile : String) : World :=
  { config := sampleConfig
    isLeader := leader
    appName := "dex-auth"
    ns := "kubeflow"
    ingressUrl := none
    oidcRes := InterfaceResult.absent
    ingressRes := InterfaceResult.absent
    container :=
      { canConnect := canConnect
        planServices := dex_auth_layer_services "kubeflow"
        configFile := configFile }
    gen := sampleGen
    hashpw := sampleHash
    dump := sampleDump }

/-- A sample persisted OAuth static-client secret content, with all four
keys the charm stores on client creation. -/
def sampleSecretContent : SecretContent :=
  [("client-id", Yaml.str "id0"),
   ("client-secret", Yaml.str "sec0"),
   ("redirect-uri", Yaml.str "http://old.example/cb"),
   ("name", Yaml.str "oauth_1")]

/-- A sample state-data record, as after `ensure_state` on a fresh unit
with `sampleGen`. -/
def sampleState : StateData :=
  { username := "admin", password := "pw0", salt := "$2b$12$salt", userId := "uuid-1" }

/-- Sample externally registered OIDC client "A". -/
def clientA : DexStaticClient :=
  { id := "idA", secret := "secA", redirectURIs := ["http://a/cb"], name := "A" }

/-- Sample externally registered OIDC client "B". -/
def clientB : DexStaticClient :=
  { id := "idB", secret := "secB", redirectURIs := ["http://b/cb"], name := "B" }

/-- Sample synthesized OAuth static client "C". -/
def clientC : DexStaticClient :=
  { id := "idC", secret := "secC", redirectURIs := ["http://c/cb"], name := "C" }

/-! ## Helper lemmas -/

/-- The only error `_generate_dex_auth_config` raises is the Blocked
connectors error. -/
lemma generate_error_blocked (dump : DexDoc → String)
    (hashpw : String → String → String) (cfg : CharmConfig) (st : StateData)
    (issuer : String) (info : List DexStaticClient) (client : Option DexStaticClient)
    (e : ErrorWithStatus)
    (h : generate_dex_auth_config dump hashpw cfg st issuer info client = Except.error e) :
    e = Status.blocked
      "Please add a connectors configuration to proceed without a static login." := by
  by_cases hb : cfg.enablePasswordDb = false ∧ cfg.connectors.truthy = false
  · cases client <;>
      simp [generate_dex_auth_config, generate_dex_auth_doc, hb] at h <;>
      exact h.symm
  · cases client <;>
      simp [generate_dex_auth_config, generate_dex_auth_doc, hb] at h

/-- `_get_interface` raises only Waiting or Blocked errors. -/
lemma get_interface_error_shape {α : Type} (res : InterfaceResult α)
    (e : ErrorWithStatus) (h : get_interface res = Except.error e) :
    ∃ m, e = Status.waiting m ∨ e = Status.blocked m := by
  cases res with
  | absent => simp [get_interface] at h
  | data d => simp [get_interface] at h
  | noVersionsListed m =>
    simp [get_interface] at h
    exact ⟨m, Or.inl h.symm⟩
  | noCompatibleVersions m =>
    simp [get_interface] at h
    exact ⟨m, Or.inr h.symm⟩

/-- `_update_layer` aborts only with Waiting or Blocked errors. -/
lemma update_layer_error_shape (dump : DexDoc → String)
    (hashpw : String → String → String) (cfg : CharmConfig) (st : StateData)
    (issuer : String) (oidcRes : InterfaceResult (List DexStaticClient))
    (client : Option DexStaticClient) (ns : String) (c : Container)
    (e : ErrorWithStatus)
    (h : (update_layer dump hashpw cfg st issuer oidcRes client ns c).error = some e) :
    ∃ m, e = Status.waiting m ∨ e = Status.blocked m := by
  unfold update_layer at h
  by_cases hcan : c.canConnect
  · simp only [hcan, not_true, if_neg, ite_false] at h
    rcases hoidc : get_interface oidcRes with eo | oidc
    · rw [hoidc] at h
      simp at h
      subst h
      exact get_interface_error_shape oidcRes eo hoidc
    · rw [hoidc] at h
      dsimp only at h
      rcases hgen : generate_dex_auth_config dump hashpw cfg st issuer
          (oidc.getD []) client with eg | s
      · rw [hgen] at h
        simp at h
        subst h
        exact ⟨_, Or.inr (generate_error_blocked dump hashpw cfg st issuer
          (oidc.getD []) client eg hgen)⟩
      · rw [hgen] at h
        simp at h
  · simp [hcan] at h
    exact ⟨_, Or.inl h.symm⟩

/-- A completed `_update_layer` pass always restarts the service exactly
once. -/
lemma update_layer_ok_restarts (dump : DexDoc → String)
    (hashpw : String → String → String) (cfg : CharmConfig) (st : StateData)
    (issuer : String) (oidcRes : InterfaceResult (List DexStaticClient))
    (client : Option DexStaticClient) (ns : String) (c : Container)
    (h : (update_layer dump hashpw cfg st issuer oidcRes client ns c).error = none) :
    (update_layer dump hashpw cfg st issuer oidcRes client ns c).eff.restarts = 1 := by
  unfold update_layer at h ⊢
  by_cases hcan : c.canConnect
  · simp only [hcan, not_true, ite_false] at h ⊢
    rcases hoidc : get_interface oidcRes with eo | oidc
    · rw [hoidc] at h
      simp at h
    · rw [hoidc] at h
      dsimp only at h ⊢
      rcases hgen : generate_dex_auth_config dump hashpw cfg st issuer
          (oidc.getD []) client with eg | s
      · rw [hgen] at h
        simp at h
      · rfl
  · simp [hcan] at h

/-- When the Blocked precondition holds, `_generate_dex_auth_config`
raises exactly the Blocked connectors error. -/
lemma generate_blocked_of (dump : DexDoc → String)
    (hashpw : String → String → String) (cfg : CharmConfig) (st : StateData)
    (issuer : String) (info : List DexStaticClient) (client : Option DexStaticClient)
    (h1 : cfg.enablePasswordDb = false) (h2 : cfg.connectors.truthy = false) :
    generate_dex_auth_config dump hashpw cfg st issuer info client =
      Except.error (Status.blocked
        "Please add a connectors configuration to proceed without a static login.") := by
  cases client <;> simp [generate_dex_auth_config, generate_dex_auth_doc, h1, h2]

/-- Outside the Blocked precondition, `_generate_dex_auth_config`
succeeds. -/
lemma generate_ok_of (dump : DexDoc → String)
    (hashpw : String → String → String) (cfg : CharmConfig) (st : StateData)
    (issuer : String) (info : List DexStaticClient) (client : Option DexStaticClient)
    (h : ¬(cfg.enablePasswordDb = false ∧ cfg.connectors.truthy = false)) :
    ∃ s, generate_dex_auth_config dump hashpw cfg st issuer info client = Except.ok s := by
  cases client <;> simp [generate_dex_auth_config, generate_dex_auth_doc, h]

/-- `_update_layer` on an unreachable container aborts immediately with
the pod-startup Waiting error and no effects. -/
lemma update_layer_not_connected (dump : DexDoc → String)
    (hashpw : String → String → String) (cfg : CharmConfig) (st : StateData)
    (issuer : String) (oidcRes : InterfaceResult (List DexStaticClient))
    (client : Option DexStaticClient) (ns : String) (c : Container)
    (hc : c.canConnect = false) :
    update_layer dump hashpw cfg st issuer oidcRes client ns c =
      { container := c, eff := Effects.zero
        error := some (Status.waiting "Waiting for pod startup to complete") } := by
  unfold update_layer
  rw [if_pos (by simp [hc])]

/-- `_update_layer` under the Blocked precondition aborts with the
Blocked connectors error and no effects. -/
lemma update_layer_blocked (dump : DexDoc → String)
    (hashpw : String → String → String) (cfg : CharmConfig) (st : StateData)
    (issuer : String) (oidcRes : InterfaceResult (List DexStaticClient))
    (oidcData : Option (List DexStaticClient))
    (client : Option DexStaticClient) (ns : String) (c : Container)
    (hc : c.canConnect = true) (ho : get_interface oidcRes = Except.ok oidcData)
    (h1 : cfg.enablePasswordDb = false) (h2 : cfg.connectors.truthy = false) :
    update_layer dump hashpw cfg st issuer oidcRes client ns c =
      { container := c, eff := Effects.zero
        error := some (Status.blocked
          "Please add a connectors configuration to proceed without a static login.") } := by
  unfold update_layer
  rw [if_neg (by simp [hc]), ho]
  dsimp only
  rw [generate_blocked_of dump hashpw cfg st issuer (oidcData.getD []) client h1 h2]

/-- `_update_layer` completes (no error) whenever the container is
reachable, the oidc interface fetch succeeds and the Blocked
precondition does not hold. -/
lemma update_layer_error_none_of (dump : DexDoc → String)
    (hashpw : String → String → String) (cfg : CharmConfig) (st : StateData)
    (issuer : String) (oidcRes : InterfaceResult (List DexStaticClient))
    (oidcData : Option (List DexStaticClient))
    (client : Option DexStaticClient) (ns : String) (c : Container)
    (hc : c.canConnect = true) (ho : get_interface oidcRes = Except.ok oidcData)
    (hna : ¬(cfg.enablePasswordDb = false ∧ cfg.connectors.truthy = false)) :
    (update_layer dump hashpw cfg st issuer oidcRes client ns c).error = none := by
  obtain ⟨s, hs⟩ := generate_ok_of dump hashpw cfg st issuer (oidcData.getD []) client hna
  unfold update_layer
  rw [if_neg (by simp [hc]), ho]
  dsimp only
  rw [hs]

/-- The last element of a status history of the shape
`first :: (middle ++ [last])`. -/
lemma history_getLast_concat (a x : Status) (l : List Status) :
    (a :: (l ++ [x])).getLast? = some x := by
  induction l generalizing a with
  | nil => rfl
  | cons y ys ih =>
    rw [List.cons_append, List.getLast?_cons_cons]
    exact ih y

/-- The stored state after a completed `main` run: the leader's run
passes it through `ensure_state`, a non-leader's run leaves it
untouched. -/
lemma main_state (w : World) (store : Option SecretContent) (st : StoredState)
    (r : MainResult) (h : main w store st = Except.ok r) :
    r.state = if w.isLeader then ensure_state w.gen st else st := by
  unfold main at h
  rcases hread : read_oauth_static_client store with e | cl
  · rw [hread] at h
    simp at h
  · rw [hread] at h
    dsimp only at h
    by_cases hl : w.isLeader
    · rw [if_pos hl] at h
      rw [if_pos hl]
      split at h
      · simp at h
        rw [← h]
      · split at h
        · simp at h
          rw [← h]
        · simp at h
          rw [← h]
    · rw [if_neg hl] at h
      rw [if_neg hl]
      simp at h
      rw [← h]

/-! ## Claims -/

/-- C1: for every configuration state, `_issuer_url` returns the first
match of the 4-tier precedence: a non-empty `issuer-url` option verbatim;
else a non-empty deprecated `public-url` option with `http://` prefixed
when no `http://`/`https://` scheme is present and `/dex` appended; else
the URL produced by the ingress relation; else the synthesized default
`http://<app-name>.<namespace>.svc:<port>/dex`. -/
theorem dexauth_c1_issuer_url_precedence (cfg : CharmConfig)
    (ingressUrl : Option String) (appName ns : String) :
    (cfg.issuerUrl ≠ "" → issuer_url cfg ingressUrl appName ns = cfg.issuerUrl) ∧
    (cfg.issuerUrl = "" → cfg.publicUrl ≠ "" →
      issuer_url cfg ingressUrl appName ns =
        (if startswith cfg.publicUrl "http://" ∨ startswith cfg.publicUrl "https://" then
          cfg.publicUrl
        else
          "http://" ++ cfg.publicUrl) ++ "/dex") ∧
    (cfg.issuerUrl = "" → cfg.publicUrl = "" → ∀ u, ingressUrl = some u → u ≠ "" →
      issuer_url cfg ingressUrl appName ns = u) ∧
    (cfg.issuerUrl = "" → cfg.publicUrl = "" → ingressUrl = none →
      issuer_url cfg ingressUrl appName ns =
        "http://" ++ appName ++ "." ++ ns ++ ".svc:" ++ toString cfg.port ++ "/dex") := by
  unfold issuer_url
  refine ⟨?_, ?_, ?_, ?_⟩ <;> intros <;> simp_all

/-- Witness for C1: the spec's own examples — `issuer-url` set is
returned verbatim, and `public-url="my-dex.io:5557"` alone yields
`"http://my-dex.io:5557/dex"`. -/
theorem dexauth_c1_witness :
    issuer_url { sampleConfig with issuerUrl := "http://a.io/dex" } none "dex-auth" "kubeflow"
      = "http://a.io/dex" ∧
    issuer_url { sampleConfig with publicUrl := "my-dex.io:5557" } none "dex-auth" "kubeflow"
      = "http://my-dex.io:5557/dex" := by
  constructor
  · exact (dexauth_c1_issuer_url_precedence
      { sampleConfig with issuerUrl := "http://a.io/dex" } none "dex-auth" "kubeflow").1
      (by decide)
  · have h := (dexauth_c1_issuer_url_precedence
      { sampleConfig with publicUrl := "my-dex.io:5557" } none "dex-auth" "kubeflow").2.1
      rfl (by decide)
    rw [h]
    decide

/-- C2: the config compiler fails with a Blocked error exactly when
`enable-password-db` is false and the parsed connectors value is empty,
that failure happens before any side effect on the workload (the
container is untouched and zero writes/restarts have occurred when
`_update_layer` aborts on it), and with `enable-password-db` false but
connectors non-empty compilation succeeds with an empty
`staticPasswords`. -/
theorem dexauth_c2_validation_gate (dump : DexDoc → String)
    (hashpw : String → String → String) (cfg : CharmConfig) (st : StateData)
    (issuer : String) (oidcClientInfo : List DexStaticClient)
    (client : Option DexStaticClient) :
    (generate_dex_auth_doc hashpw cfg st issuer oidcClientInfo client =
        Except.error (Status.blocked
          "Please add a connectors configuration to proceed without a static login.") ↔
      cfg.enablePasswordDb = false ∧ cfg.connectors.truthy = false) ∧
    (cfg.enablePasswordDb = false → cfg.connectors.truthy = true →
      ∃ doc, generate_dex_auth_doc hashpw cfg st issuer oidcClientInfo client =
          Except.ok doc ∧ doc.staticPasswords = []) ∧
    (∀ (oidcRes : InterfaceResult (List DexStaticClient))
        (oidcData : Option (List DexStaticClient)) (err : ErrorWithStatus)
        (ns : String) (c : Container),
      c.canConnect = true →
      get_interface oidcRes = Except.ok oidcData →
      generate_dex_auth_config dump hashpw cfg st issuer (oidcData.getD []) client =
        Except.error err →
      update_layer dump hashpw cfg st issuer oidcRes client ns c =
        { container := c, eff := Effects.zero, error := some err }) := by
  refine ⟨?_, ?_, ?_⟩
  · unfold generate_dex_auth_doc
    by_cases hepdb : cfg.enablePasswordDb <;> by_cases hconn : cfg.connectors.truthy <;>
      simp [hepdb, hconn]
  · intro hepdb hconn
    unfold generate_dex_auth_doc
    simp [hepdb, hconn]
  · intro oidcRes oidcData err ns c hcan hoidc hgen
    unfold update_layer
    simp [hcan, hoidc, hgen]

/-- Witness for C2: with `enable-password-db=false` and empty connectors
the compiler fails Blocked; with `enable-password-db=false` and
`connectors: foo: bar` it succeeds with empty `staticPasswords`. -/
theorem dexauth_c2_witness :
    (generate_dex_auth_doc sampleHash
        { sampleConfig with enablePasswordDb := false } sampleState "http://iss" [] none =
      Except.error (Status.blocked
        "Please add a connectors configuration to proceed without a static login.")) ∧
    (∃ doc, generate_dex_auth_doc sampleHash
        { sampleConfig with
          enablePasswordDb := false
          connectors := Yaml.map [("foo", Yaml.str "bar")] } sampleState "http://iss" [] none =
      Except.ok doc ∧ doc.staticPasswords = []) := by
  constructor
  · exact (dexauth_c2_validation_gate sampleDump sampleHash
      { sampleConfig with enablePasswordDb := false } sampleState "http://iss" [] none).1.mpr
      ⟨rfl, rfl⟩
  · exact (dexauth_c2_validation_gate sampleDump sampleHash
      { sampleConfig with
        enablePasswordDb := false
        connectors := Yaml.map [("foo", Yaml.str "bar")] } sampleState
      "http://iss" [] none).2.1 rfl rfl

/-- C3: on a reconciliation pass whose desired process descriptor equals
the applied one and whose desired config bytes equal the applied bytes,
the apply engine performs zero layer writes and zero config writes (and
leaves the container state unchanged); when the config bytes differ,
exactly one file write occurs; and every successful pass — both at the
apply-engine level and for every `main` run ending Active — restarts the
workload exactly once, unconditionally. -/
theorem dexauth_c3_change_detection (dump : DexDoc → String)
    (hashpw : String → String → String) (cfg : CharmConfig) (st : StateData)
    (issuer : String) (oidcRes : InterfaceResult (List DexStaticClient))
    (oidcData : Option (List DexStaticClient))
    (client : Option DexStaticClient) (ns : String) (c : Container)
    (desired : String)
    (hcan : c.canConnect = true)
    (hoidc : get_interface oidcRes = Except.ok oidcData)
    (hgen : generate_dex_auth_config dump hashpw cfg st issuer (oidcData.getD []) client =
      Except.ok desired) :
    (c.planServices = dex_auth_layer_services ns → c.configFile = desired →
      (update_layer dump hashpw cfg st issuer oidcRes client ns c).eff.layerWrites = 0 ∧
      (update_layer dump hashpw cfg st issuer oidcRes client ns c).eff.configWrites = 0 ∧
      (update_layer dump hashpw cfg st issuer oidcRes client ns c).container = c) ∧
    (c.configFile ≠ desired →
      (update_layer dump hashpw cfg st issuer oidcRes client ns c).eff.configWrites = 1) ∧
    ((update_layer dump hashpw cfg st issuer oidcRes client ns c).error = none ∧
      (update_layer dump hashpw cfg st issuer oidcRes client ns c).eff.restarts = 1) ∧
    (∀ (w : World) (store : Option SecretContent) (stq : StoredState) (r : MainResult),
      main w store stq = Except.ok r → r.status = Status.active → r.eff.restarts = 1) := by
  have hul : update_layer dump hashpw cfg st issuer oidcRes client ns c =
      { container :=
          { canConnect := c.canConnect
            planServices :=
              if c.planServices ≠ dex_auth_layer_services ns then
                dex_auth_layer_services ns
              else
                c.planServices
            configFile := if c.configFile ≠ desired then desired else c.configFile }
        eff :=
          { layerWrites := if c.planServices ≠ dex_auth_layer_services ns then 1 else 0
            configWrites := if c.configFile ≠ desired then 1 else 0
            restarts := 1
            relationWrites := 0
            secretWrites := 0
            secretDeletes := 0
            statusSets :=
              if c.planServices ≠ dex_auth_layer_services ns then
                [Status.maintenance "Applying new pebble layer"]
              else
                [] }
        error := none } := by
    unfold update_layer
    rw [if_neg (by simp [hcan]), hoidc]
    dsimp only
    rw [hgen]
  refine ⟨?_, ?_, ?_, ?_⟩
  · intro h1 h2
    rw [hul]
    simp [h1, h2]
    rw [← h1, ← h2]
  · intro hdiff
    rw [hul]
    simp [hdiff]
  · rw [hul]
    exact ⟨rfl, rfl⟩
  · intro w store stq r hmain hact
    unfold main at hmain
    rcases hread : read_oauth_static_client store with e | cl
    · rw [hread] at hmain
      simp at hmain
    · rw [hread] at hmain
      dsimp only at hmain
      by_cases hl : w.isLeader
      · rw [if_pos hl] at hmain
        split at hmain
        · rename_i err herr
          simp at hmain
          rw [← hmain] at hact
          simp at hact
          subst hact
          rcases update_layer_error_shape _ _ _ _ _ _ _ _ _ _ herr with ⟨m, hm | hm⟩ <;>
            simp at hm
        · rename_i herr
          split at hmain
          · rename_i e2 hing
            simp at hmain
            rw [← hmain] at hact
            simp at hact
            subst hact
            rcases get_interface_error_shape _ _ hing with ⟨m, hm | hm⟩ <;> simp at hm
          · rename_i ii hing
            simp at hmain
            rw [← hmain]
            cases ii <;>
              simpa using update_layer_ok_restarts _ _ _ _ _ _ _ _ _ herr
      · rw [if_neg hl] at hmain
        simp at hmain
        rw [← hmain] at hact
        simp at hact

/-- A second stand-in serializer, constant so that the desired config
bytes in the C3 witness are known syntactically. -/
def constDump (d : DexDoc) : String := d.telemetryHttp

/-- Witness for C3: with the container already carrying the desired plan
and the desired config bytes, the pass performs no writes and one
restart; with different config bytes (container file "old"), exactly one
config write occurs. -/
theorem dexauth_c3_witness :
    (update_layer constDump sampleHash sampleConfig sampleState "http://iss"
        InterfaceResult.absent none "kubeflow"
        { canConnect := true, planServices := dex_auth_layer_services "kubeflow"
          configFile := "0.0.0.0:5558" }).eff.layerWrites = 0 ∧
    (update_layer constDump sampleHash sampleConfig sampleState "http://iss"
        InterfaceResult.absent none "kubeflow"
        { canConnect := true, planServices := dex_auth_layer_services "kubeflow"
          configFile := "0.0.0.0:5558" }).eff.configWrites = 0 ∧
    (update_layer constDump sampleHash sampleConfig sampleState "http://iss"
        InterfaceResult.absent none "kubeflow"
        { canConnect := true, planServices := dex_auth_layer_services "kubeflow"
          configFile := "0.0.0.0:5558" }).eff.restarts = 1 ∧
    (update_layer constDump sampleHash sampleConfig sampleState "http://iss"
        InterfaceResult.absent none "kubeflow"
        { canConnect := true, planServices := dex_auth_layer_services "kubeflow"
          configFile := "old" }).eff.configWrites = 1 := by
  have h := dexauth_c3_change_detection constDump sampleHash sampleConfig sampleState
    "http://iss" InterfaceResult.absent none none "kubeflow"
    { canConnect := true, planServices := dex_auth_layer_services "kubeflow"
      configFile := "0.0.0.0:5558" }
    "0.0.0.0:5558" rfl rfl rfl
  have h2 := dexauth_c3_change_detection constDump sampleHash sampleConfig sampleState
    "http://iss" InterfaceResult.absent none none "kubeflow"
    { canConnect := true, planServices := dex_auth_layer_services "kubeflow"
      configFile := "old" }
    "0.0.0.0:5558" rfl rfl rfl
  obtain ⟨ha, -, hc, -⟩ := h
  obtain ⟨ha1, ha2, ha3⟩ := ha rfl rfl
  exact ⟨ha1, ha2, hc.2, h2.2.1 (by decide)⟩

/-- C5: with `enable-password-db` true the compiled document has exactly
one `staticPasswords` entry, whose username/email is the
`static-username` override when non-empty else the stored username,
whose hash is the bcrypt hash of the effective password (the
`static-password` override when non-empty else the stored password)
under the stored salt, and whose userID is the stored user id. -/
theorem dexauth_c5_static_password_entry (hashpw : String → String → String)
    (cfg : CharmConfig) (st : StateData) (issuer : String)
    (oidcClientInfo : List DexStaticClient) (client : Option DexStaticClient)
    (hepdb : cfg.enablePasswordDb = true) :
    ∃ doc, generate_dex_auth_doc hashpw cfg st issuer oidcClientInfo client =
        Except.ok doc ∧
      doc.staticPasswords =
        [{ email := if cfg.staticUsername != "" then cfg.staticUsername else st.username
           hash := hashpw
             (if cfg.staticPassword != "" then cfg.staticPassword else st.password) st.salt
           username := if cfg.staticUsername != "" then cfg.staticUsername else st.username
           userID := st.userId }] := by
  unfold generate_dex_auth_doc
  simp [hepdb]

/-- Witness for C5: the default config (password DB on, no overrides)
yields the single entry built from the stored state. -/
theorem dexauth_c5_witness :
    ∃ doc, generate_dex_auth_doc sampleHash sampleConfig sampleState "http://iss" [] none =
        Except.ok doc ∧
      doc.staticPasswords =
        [{ email := "admin", hash := "$2b$12$salt:pw0", username := "admin"
           userID := "uuid-1" }] := by
  have h := dexauth_c5_static_password_entry sampleHash sampleConfig sampleState
    "http://iss" [] none rfl
  simpa [sampleConfig, sampleState, sampleHash] using h

/-- C6: the compiled `staticClients` list is the externally registered
OIDC client entries in their original order, followed by the synthesized
OAuth static client as the last element when present, and the OIDC
entries alone when it is absent. -/
theorem dexauth_c6_static_client_ordering (hashpw : String → String → String)
    (cfg : CharmConfig) (st : StateData) (issuer : String)
    (oidcClientInfo : List DexStaticClient) (client : Option DexStaticClient)
    (doc : DexDoc)
    (h : generate_dex_auth_doc hashpw cfg st issuer oidcClientInfo client = Except.ok doc) :
    (∀ c, client = some c → doc.staticClients = oidcClientInfo ++ [c]) ∧
    (client = none → doc.staticClients = oidcClientInfo) := by
  constructor
  · rintro c rfl
    by_cases hb : cfg.enablePasswordDb = false ∧ cfg.connectors.truthy = false
    · simp [generate_dex_auth_doc, hb] at h
    · simp [generate_dex_auth_doc, hb] at h
      subst h
      simp
  · rintro rfl
    by_cases hb : cfg.enablePasswordDb = false ∧ cfg.connectors.truthy = false
    · simp [generate_dex_auth_doc, hb] at h
    · simp [generate_dex_auth_doc, hb] at h
      subst h
      simp

/-- Witness for C6: two registered clients `[A, B]` and a present OAuth
static client `C` compile to `staticClients = [A, B, C]`. -/
theorem dexauth_c6_witness :
    ∃ doc, generate_dex_auth_doc sampleHash sampleConfig sampleState "http://iss"
        [clientA, clientB] (some clientC) = Except.ok doc ∧
      doc.staticClients = [clientA, clientB, clientC] := by
  refine ⟨_, rfl, ?_⟩
  have h := (dexauth_c6_static_client_ordering sampleHash sampleConfig sampleState
    "http://iss" [clientA, clientB] (some clientC) _ rfl).1 clientC rfl
  exact h

/-- A second sample of random generated values, used to show the stored
state ignores later generations. -/
def sampleGen2 : GenValues :=
  { password := "qqqqqqqqqqqqqqqqqqqqqqqqqqqqqq", salt := "$2b$12$other", userId := "uuid-2" }

/-- C8: the four identity-state fields are generated at most once — once
a reconciliation has set them, every later reconciliation (under any
later random draw) leaves all four stored values unchanged; and the
`static-username`/`static-password` overrides change only the values
used in the compiled config, never the stored defaults (a completed run
always stores exactly `ensure_state` of the prior state, independent of
the config). -/
theorem dexauth_c8_state_stability :
    (∀ (gen gen' : GenValues) (s : StoredState),
      ensure_state gen' (ensure_state gen s) = ensure_state gen s) ∧
    (∀ (w : World) (store : Option SecretContent) (st : StoredState) (r : MainResult),
      main w store st = Except.ok r → w.isLeader = true →
      r.state = ensure_state w.gen st) ∧
    (∀ (w w' : World) (store store' : Option SecretContent) (st : StoredState)
        (r r' : MainResult),
      main w store st = Except.ok r → w.isLeader = true →
      main w' store' r.state = Except.ok r' → r'.state = r.state) ∧
    (∀ (hashpw : String → String → String) (cfg : CharmConfig) (st : StateData)
        (issuer : String) (info : List DexStaticClient) (client : Option DexStaticClient),
      cfg.enablePasswordDb = true → cfg.staticUsername ≠ "" → cfg.staticPassword ≠ "" →
      ∃ doc, generate_dex_auth_doc hashpw cfg st issuer info client = Except.ok doc ∧
        doc.staticPasswords =
          [{ email := cfg.staticUsername
             hash := hashpw cfg.staticPassword st.salt
             username := cfg.staticUsername
             userID := st.userId }]) := by
  have hstable : ∀ (gen gen' : GenValues) (s : StoredState),
      ensure_state gen' (ensure_state gen s) = ensure_state gen s := by
    intro gen gen' s
    simp [ensure_state]
  have hleader : ∀ (w : World) (store : Option SecretContent) (st : StoredState)
      (r : MainResult), main w store st = Except.ok r → w.isLeader = true →
      r.state = ensure_state w.gen st := by
    intro w store st r h hl
    rw [main_state w store st r h, if_pos hl]
  refine ⟨hstable, hleader, ?_, ?_⟩
  · intro w w' store store' st r r' h hl h'
    rw [main_state w' store' r.state r' h']
    by_cases hl' : w'.isLeader
    · rw [if_pos hl', hleader w store st r h hl, hstable]
    · rw [if_neg hl']
  · intro hashpw cfg st issuer info client hepdb hu hp
    cases client <;> simp [generate_dex_auth_doc, hepdb, hu, hp]

/-- Witness for C8: a leader run sets the stored state from `sampleGen`;
a second leader run with different random draws (`sampleGen2`) leaves
every stored field, in particular `user_id`, unchanged. -/
theorem dexauth_c8_witness :
    ∃ r r', main (sampleWorld true true "x") none emptyState = Except.ok r ∧
      main { sampleWorld true true "x" with gen := sampleGen2 } none r.state =
        Except.ok r' ∧
      r'.state = r.state ∧ r.state.userId = some "uuid-1" := by
  refine ⟨_, _, rfl, rfl, ?_, rfl⟩
  exact dexauth_c8_state_stability.2.2.1 (sampleWorld true true "x")
    { sampleWorld true true "x" with gen := sampleGen2 } none none emptyState _ _ rfl rfl rfl

/-- C10: every successfully compiled document carries the fixed fields:
in-cluster kubernetes storage, `web.http` bound to 0.0.0.0 on the
configured port, telemetry on 0.0.0.0:5558, debug/text logging, and the
approval screen unconditionally skipped. -/
theorem dexauth_c10_fixed_fields (hashpw : String → String → String)
    (cfg : CharmConfig) (st : StateData) (issuer : String)
    (oidcClientInfo : List DexStaticClient) (client : Option DexStaticClient)
    (doc : DexDoc)
    (h : generate_dex_auth_doc hashpw cfg st issuer oidcClientInfo client = Except.ok doc) :
    doc.storage = { type := "kubernetes", inCluster := true } ∧
    doc.webHttp = "0.0.0.0:" ++ toString cfg.port ∧
    doc.telemetryHttp = "0.0.0.0:5558" ∧
    doc.logger = { level := "debug", format := "text" } ∧
    doc.skipApprovalScreen = true := by
  by_cases hb : cfg.enablePasswordDb = false ∧ cfg.connectors.truthy = false
  · simp [generate_dex_auth_doc, hb] at h
  · cases client <;>
    · simp [generate_dex_auth_doc, hb] at h
      subst h
      exact ⟨rfl, rfl, rfl, rfl, rfl⟩

/-- Witness for C10: the fixed fields of a concrete successful
compilation. -/
theorem dexauth_c10_witness :
    ∃ doc, generate_dex_auth_doc sampleHash sampleConfig sampleState "http://iss" [] none =
        Except.ok doc ∧
      doc.storage = { type := "kubernetes", inCluster := true } ∧
      doc.webHttp = "0.0.0.0:5556" ∧
      doc.telemetryHttp = "0.0.0.0:5558" ∧
      doc.logger = { level := "debug", format := "text" } ∧
      doc.skipApprovalScreen = true := by
  refine ⟨_, rfl, ?_⟩
  have h := dexauth_c10_fixed_fields sampleHash sampleConfig sampleState "http://iss" [] none
    _ rfl
  refine ⟨h.1, ?_, h.2.2.1, h.2.2.2.1, h.2.2.2.2⟩
  rw [h.2.1]
  rfl

/-- Counterexample to C9 as stated: on a non-leader unit the
reconciliation never enters Maintenance — the leadership check precedes
the `Maintenance("Configuring dex charm")` assignment, so the only
status ever set is Waiting. -/
theorem dexauth_c9_counterexample :
    ∃ r, main (sampleWorld false true "x") none emptyState = Except.ok r ∧
      r.history = [Status.waiting "Waiting for leadership"] ∧
      r.history.head? ≠ some (Status.maintenance "Configuring dex charm") := by
  refine ⟨_, rfl, rfl, by decide⟩

/-- C9 (amended): every reconciliation attempt that passes the
leadership check first enters Maintenance with the configuring message;
a non-leader attempt instead goes directly to Waiting without entering
Maintenance.  Every completed attempt terminates in exactly one state,
the last one set, which is Waiting, Blocked or Active: an unreachable
container ends in Waiting, the unsatisfiable configuration
(password DB off, no connectors) ends in Blocked, and completion of all
steps without error ends in Active. -/
theorem dexauth_c9_status_machine (w : World) (store : Option SecretContent)
    (st : StoredState) (r : MainResult)
    (h : main w store st = Except.ok r) :
    (w.isLeader = true →
      r.history.head? = some (Status.maintenance "Configuring dex charm")) ∧
    (w.isLeader = false →
      r.history = [Status.waiting "Waiting for leadership"] ∧
      r.status = Status.waiting "Waiting for leadership") ∧
    r.history.getLast? = some r.status ∧
    (r.status = Status.active ∨
      ∃ m, r.status = Status.waiting m ∨ r.status = Status.blocked m) ∧
    (w.isLeader = true → w.container.canConnect = false →
      r.status = Status.waiting "Waiting for pod startup to complete") ∧
    (∀ oidcData, w.isLeader = true → w.container.canConnect = true →
      get_interface w.oidcRes = Except.ok oidcData →
      w.config.enablePasswordDb = false → w.config.connectors.truthy = false →
      r.status = Status.blocked
        "Please add a connectors configuration to proceed without a static login.") ∧
    (∀ oidcData ii, w.isLeader = true → w.container.canConnect = true →
      get_interface w.oidcRes = Except.ok oidcData →
      get_interface w.ingressRes = Except.ok ii →
      ¬(w.config.enablePasswordDb = false ∧ w.config.connectors.truthy = false) →
      r.status = Status.active) := by
  unfold main at h
  rcases hread : read_oauth_static_client store with e | cl
  · rw [hread] at h
    simp at h
  · rw [hread] at h
    dsimp only at h
    by_cases hl : w.isLeader
    · rw [if_pos hl] at h
      split at h
      · rename_i err herr
        simp at h
        subst h
        obtain ⟨m, hm⟩ := update_layer_error_shape _ _ _ _ _ _ _ _ _ _ herr
        refine ⟨fun _ => by simp, fun hnl => absurd hl (by simp [hnl]), ?_, ?_, ?_, ?_, ?_⟩
        · exact history_getLast_concat _ _ _
        · exact Or.inr ⟨m, hm⟩
        · intro _ hcf
          rw [update_layer_not_connected _ _ _ _ _ _ _ _ _ hcf] at herr
          simp at herr
          simp [herr]
        · intro oidcData _ hcf ho h1 h2
          rw [update_layer_blocked _ _ _ _ _ _ oidcData _ _ _ hcf ho h1 h2] at herr
          simp at herr
          simp [herr]
        · intro oidcData ii _ hcf ho hing hna
          rw [update_layer_error_none_of _ _ _ _ _ _ oidcData _ _ _ hcf ho hna] at herr
          simp at herr
      · rename_i herr
        split at h
        · rename_i e2 hing
          simp at h
          subst h
          obtain ⟨m, hm⟩ := get_interface_error_shape _ _ hing
          refine ⟨fun _ => by simp, fun hnl => absurd hl (by simp [hnl]), ?_, ?_, ?_, ?_, ?_⟩
          · exact history_getLast_concat _ _ _
          · exact Or.inr ⟨m, hm⟩
          · intro _ hcf
            rw [update_layer_not_connected _ _ _ _ _ _ _ _ _ hcf] at herr
            simp at herr
          · intro oidcData _ hcf ho h1 h2
            rw [update_layer_blocked _ _ _ _ _ _ oidcData _ _ _ hcf ho h1 h2] at herr
            simp at herr
          · intro oidcData ii _ hcf ho hing2 hna
            rw [hing] at hing2
            simp at hing2
        · rename_i ii hing
          simp at h
          subst h
          refine ⟨fun _ => by simp, fun hnl => absurd hl (by simp [hnl]), ?_, ?_, ?_, ?_, ?_⟩
          · exact history_getLast_concat _ _ _
          · exact Or.inl rfl
          · intro _ hcf
            rw [update_layer_not_connected _ _ _ _ _ _ _ _ _ hcf] at herr
            simp at herr
          · intro oidcData _ hcf ho h1 h2
            rw [update_layer_blocked _ _ _ _ _ _ oidcData _ _ _ hcf ho h1 h2] at herr
            simp at herr
          · intro _ _ _ _ _ _ _
            rfl
    · rw [if_neg hl] at h
      simp at h
      subst h
      refine ⟨fun hyl => absurd hyl hl, fun _ => ⟨rfl, rfl⟩, rfl, Or.inr ⟨_, Or.inl rfl⟩,
        fun hyl => absurd hyl hl, fun _ hyl => absurd hyl hl, fun _ _ hyl => absurd hyl hl⟩

/-- Witness for C9 (amended): a leader run on a reachable container with
valid configuration first sets Maintenance and ends Active; the status
classification holds at this concrete input. -/
theorem dexauth_c9_witness :
    ∃ r, main (sampleWorld true true "x") none emptyState = Except.ok r ∧
      r.history.head? = some (Status.maintenance "Configuring dex charm") ∧
      r.status = Status.active := by
  refine ⟨_, rfl, ?_, ?_⟩
  · exact (dexauth_c9_status_machine (sampleWorld true true "x") none emptyState _ rfl).1 rfl
  · exact (dexauth_c9_status_machine (sampleWorld true true "x") none emptyState _
      rfl).2.2.2.2.2.2 none none rfl rfl rfl rfl (by simp [sampleWorld, sampleConfig])

/-- Counterexample to C4 as stated: the OAuth client-changed handler has
no leadership check — a non-leader unit handling a client-changed event
performs a secret mutation (`set_content`), so non-leaders are not
read-only observers under every handler. -/
theorem dexauth_c4_counterexample :
    (sampleWorld false true "x").isLeader = false ∧
    ∃ hr, on_oauth_client_changed (sampleWorld false true "x") (some sampleSecretContent)
        emptyState "http://new.example/cb" = Except.ok hr ∧
      hr.handlerEff.secretWrites ≠ 0 := by
  refine ⟨rfl, _, rfl, by decide⟩

/-- C4 (amended): a non-leader invoking reconcile performs zero
relation-data writes and zero secret mutations and ends in Waiting, and
non-leaders are read-only no-ops under the OAuth client-created and
client-deleted handlers; the one exception is the client-changed
handler, which carries no leadership check and mutates the persisted
secret on any unit. -/
theorem dexauth_c4_leadership_gate (w : World) (store : Option SecretContent)
    (st : StoredState) (hl : w.isLeader = false) :
    (∀ r, main w store st = Except.ok r →
      r.eff.relationWrites = 0 ∧ r.eff.secretWrites = 0 ∧ r.eff.secretDeletes = 0 ∧
      r.status = Status.waiting "Waiting for leadership") ∧
    (∀ clientId clientSecret uri relId,
      on_oauth_client_created w store st clientId clientSecret uri relId =
        { store := store, handlerEff := Effects.zero, mainResult := none }) ∧
    ((on_oauth_client_deleted w store st).store = store ∧
      (on_oauth_client_deleted w store st).handlerEff = Effects.zero) ∧
    (∀ uri hr, on_oauth_client_changed w store st uri = Except.ok hr →
      hr.handlerEff.secretWrites = 1) := by
  refine ⟨?_, ?_, ?_, ?_⟩
  · intro r h
    unfold main at h
    rcases hread : read_oauth_static_client store with e | cl
    · rw [hread] at h
      simp at h
    · rw [hread] at h
      dsimp only at h
      rw [if_neg (by simp [hl])] at h
      simp at h
      rw [← h]
      exact ⟨rfl, rfl, rfl, rfl⟩
  · intro clientId clientSecret uri relId
    unfold on_oauth_client_created
    rw [if_neg (by simp [hl])]
  · unfold on_oauth_client_deleted
    rw [if_neg (by simp [hl])]
    exact ⟨rfl, rfl⟩
  · intro uri hr h
    cases store with
    | none => simp [on_oauth_client_changed] at h
    | some content =>
      simp [on_oauth_client_changed] at h
      rw [← h]

/-- Witness for C4 (amended): a concrete non-leader reconcile run
performs zero relation writes and zero secret mutations and ends
Waiting. -/
theorem dexauth_c4_witness :
    ∃ r, main (sampleWorld false true "x") none emptyState = Except.ok r ∧
      r.eff.relationWrites = 0 ∧ r.eff.secretWrites = 0 ∧ r.eff.secretDeletes = 0 ∧
      r.status = Status.waiting "Waiting for leadership" := by
  refine ⟨_, rfl, ?_⟩
  exact (dexauth_c4_leadership_gate (sampleWorld false true "x") none emptyState rfl).1 _ rfl

/-- C7: the claim matches the intent (update only the redirect URI of
the persisted secret; keep client-id, client-secret and name), but the
code calls `set_content({"redirectURIs": [event.redirect_uri]})`, which
replaces the entire secret content with that one-key mapping (and under
a key name, `redirectURIs`, that `main`'s reader never looks up): after
a client-changed event the client-id, client-secret and name are gone
and the handler's own closing `main` call crashes reading `client-id`.
The deletion half of the claim does hold: client-deleted with the secret
already absent is a logged no-op. -/
theorem dexauth_c7_secret_replaced :
    lookupContent sampleSecretContent "client-id" = some (Yaml.str "id0") ∧
    (∃ hr, on_oauth_client_changed (sampleWorld true true "x") (some sampleSecretContent)
        emptyState "http://new.example/cb" = Except.ok hr ∧
      hr.store = some [("redirectURIs", Yaml.list [Yaml.str "http://new.example/cb"])] ∧
      (∀ c, hr.store = some c → lookupContent c "client-id" = none) ∧
      hr.mainResult = some (Except.error "KeyError")) ∧
    (on_oauth_client_deleted (sampleWorld true true "x") none emptyState).handlerEff =
      Effects.zero := by
  refine ⟨rfl, ⟨_, rfl, rfl, ?_, rfl⟩, rfl⟩
  intro c hc
  cases hc
  rfl

end DexAuth
